import Mathlib

/-!
Verification development for the topogi-renderer repository.

The live crate consists of `src/lib.rs` (which declares only `pub mod
render_tree`) and `src/render_tree.rs`; the files `block.rs`, `stack.rs`,
`text.rs` and `renderer.rs` are not part of the module tree. The builder
functions below are translated from `src/render_tree.rs`, and the render
engine from the `render_tree`/`render_layer` functions of `src/lib.rs`.
-/

namespace Topogi

/-- Modelled from the spec: the expression value of the external
`topogi_lang` crate (spec section 3): an immutable value that is an
integer, a string, a symbol, or an ordered sequence of expressions. -/
inductive Exp where
  | integer (n : Int)
  | string (s : String)
  | symbol (s : String)
  | list (es : List Exp)

/-- The `Exp::as_list` of the external crate: the element list when the
expression is a list, otherwise `none`. -/
def Exp.as_list : Exp → Option (List Exp)
  | .list es => some es
  | _ => none

/-- The `Exp::as_symbol` of the external crate. -/
def Exp.as_symbol : Exp → Option String
  | .symbol s => some s
  | _ => none

/-- The `Exp::as_integer` of the external crate. -/
def Exp.as_integer : Exp → Option Int
  | .integer n => some n
  | _ => none

mutual
/-- Modelled from the spec: the `Display` stringification of the external
expression type ("stringify", spec section 4.1). The repository's own
tests pin the atom cases: a string displays as its raw content
(`test_create_text`), a symbol as its name (`test_create_block`). Lists
are printed as parenthesised space-separated sequences. -/
def Exp.toString : Exp → String
  | .integer n => Int.repr n
  | .string s => s
  | .symbol s => s
  | .list es => "(" ++ Exp.toStringList es ++ ")"

/-- Space-separated stringification of a list of expressions. -/
def Exp.toStringList : List Exp → String
  | [] => ""
  | [e] => Exp.toString e
  | e :: es => Exp.toString e ++ " " ++ Exp.toStringList es
end

/-- The `ratatui::layout::Alignment`; its `Default` is `Left`. -/
inductive Alignment where
  | Left
  | Center
  | Right
deriving DecidableEq, Repr

/-- The `BlockStyle` of `render_tree.rs` (lines 47-50): the only field is
`title_align`. -/
structure BlockStyle where
  title_align : Alignment
deriving DecidableEq, Repr

/-- The `BlockStyle::default()`: derived `Default`, so `title_align` is
`Alignment::Left`. -/
def BlockStyle.default : BlockStyle := ⟨Alignment.Left⟩

/-- The `ratatui::layout::Direction`. -/
inductive Direction where
  | Horizontal
  | Vertical
deriving DecidableEq, Repr

/-- The `ratatui::layout::Constraint`; the numeric payloads are `u16`, kept
here as `Nat` values already reduced modulo `2 ^ 16` at the point where
the code performs the `as u16` cast. -/
inductive Constraint where
  | Length (n : Nat)
  | Min (n : Nat)
  | Max (n : Nat)
  | Percentage (n : Nat)
  | Fill (n : Nat)
deriving DecidableEq, Repr

/-- The `RenderTreeError` of `render_tree.rs` (lines 145-153). -/
inductive RenderTreeError where
  | ExpectedList (e : Exp)
  | ExpectInteger (e : Exp)
  | ExpectedSymbol (s : String) (e : Exp)
  | ExpectedString (e : Exp)
  | InvalidLength (e : Exp)
  | InvalidDirection (s : String)

mutual
/-- The `RenderTree` of `render_tree.rs` (lines 25-32). -/
inductive RenderTree where
  | Text (s : String)
  | Block (b : Block)
  | Stack (d : Direction) (elems : List StackElement)

/-- The `Block` of `render_tree.rs` (lines 40-45). -/
inductive Block where
  | mk (title : String) (content : RenderTree) (style : BlockStyle)

/-- The `StackElement` of `render_tree.rs` (lines 130-134). -/
inductive StackElement where
  | mk (constraint : Constraint) (content : RenderTree)
end

/-- Title field of a `Block`. -/
def Block.title : Block → String
  | .mk t _ _ => t

/-- Content field of a `Block`. -/
def Block.content : Block → RenderTree
  | .mk _ c _ => c

/-- Style field of a `Block`. -/
def Block.style : Block → BlockStyle
  | .mk _ _ s => s

/-- Constraint field of a `StackElement`. -/
def StackElement.constraint : StackElement → Constraint
  | .mk c _ => c

/-- Content field of a `StackElement`. -/
def StackElement.content : StackElement → RenderTree
  | .mk _ c => c

/-- The `RenderLayer` of `render_tree.rs` (lines 6-9). -/
structure RenderLayer where
  trees : List RenderTree

/-- The `create_text` (render_tree.rs lines 155-157): always succeeds with
the stringified expression. -/
def create_text (exp : Exp) : Except RenderTreeError RenderTree :=
  .ok (.Text (Exp.toString exp))

/-- The `create_integer` (render_tree.rs lines 159-162). -/
def create_integer (exp : Exp) : Except RenderTreeError Int :=
  match exp.as_integer with
  | some n => .ok n
  | none => .error (.ExpectInteger exp)

/-- Rust's `value as u16` cast of an `i64`: truncation to the low 16
bits, i.e. the mathematical residue modulo `2 ^ 16`. -/
def i64_as_u16 (n : Int) : Nat := (n % 65536).toNat

/-- The `create_constraint` (render_tree.rs lines 164-204). Note that the
wrong-arity case returns `ExpectedList` (line 170), not `InvalidLength`. -/
def create_constraint (exp : Exp) : Except RenderTreeError Constraint :=
  match exp with
  | .list [e0, e1] =>
    match e0.as_symbol with
    | none => .error (.ExpectedSymbol "constraint kind" exp)
    | some kind =>
      match kind with
      | "length" =>
        match create_integer e1 with
        | .ok v => .ok (.Length (i64_as_u16 v))
        | .error er => .error er
      | "min" =>
        match create_integer e1 with
        | .ok v => .ok (.Min (i64_as_u16 v))
        | .error er => .error er
      | "max" =>
        match create_integer e1 with
        | .ok v => .ok (.Max (i64_as_u16 v))
        | .error er => .error er
      | "percentage" =>
        match create_integer e1 with
        | .ok v => .ok (.Percentage (i64_as_u16 v))
        | .error er => .error er
      | "fill" =>
        match create_integer e1 with
        | .ok v => .ok (.Fill (i64_as_u16 v))
        | .error er => .error er
      | _ => .error (.ExpectedSymbol "constraint kind" exp)
  | .list _ => .error (.ExpectedList exp)
  | _ => .error (.ExpectedList exp)

/-- The `create_direction` (render_tree.rs lines 221-231). -/
def create_direction (exp : Exp) : Except RenderTreeError Direction :=
  match exp.as_symbol with
  | none => .error (.ExpectedSymbol "horizontal or vertical" exp)
  | some d =>
    match d with
    | "horizontal" => .ok .Horizontal
    | "vertical" => .ok .Vertical
    | _ => .error (.InvalidDirection d)

/-- The `BlockStyle::title_align` (render_tree.rs lines 76-96). -/
def BlockStyle.title_align_of (exp : Exp) : Except RenderTreeError Alignment :=
  match exp with
  | .list [e0, e1] =>
    if e0.as_symbol ≠ some "title_align" then
      .error (.ExpectedSymbol "title_align" exp)
    else
      match e1.as_symbol with
      | some "center" => .ok .Center
      | some "left" => .ok .Left
      | some "right" => .ok .Right
      | _ => .error (.ExpectedSymbol "center | left | right" exp)
  | .list _ => .error (.InvalidLength exp)
  | _ => .error (.ExpectedList exp)

/-- The `BlockStyle::from_exp` (render_tree.rs lines 53-74): the clauses
after the `style` head are folded over; a clause that fails the
`title_align` parser is skipped, one that succeeds overwrites the
alignment. -/
def BlockStyle.from_exp (exp : Exp) : Except RenderTreeError BlockStyle :=
  match exp with
  | .list (e0 :: c1 :: rest) =>
    if e0.as_symbol ≠ some "style" then
      .error (.ExpectedSymbol "style" exp)
    else
      .ok ((c1 :: rest).foldl
        (fun st c =>
          match BlockStyle.title_align_of c with
          | .ok a => { st with title_align := a }
          | .error _ => st)
        BlockStyle.default)
  | .list _ => .error (.InvalidLength exp)
  | _ => .error (.ExpectedList exp)

mutual
/-- The `create_render_tree` (render_tree.rs lines 257-262): try the block
builder, on its failure the stack builder, on its failure the text
builder, and return the first success (`or_else` cascade). -/
def create_render_tree (exp : Exp) : Except RenderTreeError RenderTree :=
  match Block.from_exp exp with
  | .ok b => .ok (.Block b)
  | .error _ =>
    match create_stack exp with
    | .ok t => .ok t
    | .error _ => create_text exp
termination_by 2 * sizeOf exp + 1

/-- The `Block::from_exp` (render_tree.rs lines 108-127): a list of length
at least 3 headed by the symbol `block`; element 1 is stringified into
the title, element 2 recursively built, and an optional element 3 parsed
as a style (its error propagated by `?`). -/
def Block.from_exp (exp : Exp) : Except RenderTreeError Block :=
  match exp with
  | .list (e0 :: e1 :: e2 :: rest) =>
    if e0.as_symbol ≠ some "block" then
      .error (.ExpectedSymbol "block" exp)
    else
      match create_render_tree e2 with
      | .error er => .error er
      | .ok content =>
        match rest.head? with
        | none => .ok (Block.mk (Exp.toString e1) content BlockStyle.default)
        | some styleExp =>
          match BlockStyle.from_exp styleExp with
          | .error er => .error er
          | .ok s => .ok (Block.mk (Exp.toString e1) content s)
  | .list _ => .error (.InvalidLength exp)
  | _ => .error (.ExpectedList exp)
termination_by 2 * sizeOf exp

/-- The `create_stack` (render_tree.rs lines 233-255): a list of length at
least 3 headed by the symbol `stack`; element 1 is the direction and
the remaining elements are stack elements, collected left to right with
the first error short-circuiting. -/
def create_stack (exp : Exp) : Except RenderTreeError RenderTree :=
  match exp with
  | .list (e0 :: e1 :: e2 :: rest) =>
    if e0.as_symbol ≠ some "stack" then
      .error (.ExpectedSymbol "stack" exp)
    else
      match create_direction e1 with
      | .error er => .error er
      | .ok direction =>
        match create_stack_elements (e2 :: rest) with
        | .error er => .error er
        | .ok elems => .ok (.Stack direction elems)
  | .list _ => .error (.InvalidLength exp)
  | _ => .error (.ExpectedList exp)
termination_by 2 * sizeOf exp

/-- The `collect::<Result<Vec<StackElement>>>` of `create_stack`:
left-to-right traversal returning the first error. -/
def create_stack_elements (es : List Exp) :
    Except RenderTreeError (List StackElement) :=
  match es with
  | [] => .ok []
  | e :: rest =>
    match create_stack_element e with
    | .error er => .error er
    | .ok x =>
      match create_stack_elements rest with
      | .error er => .error er
      | .ok xs => .ok (x :: xs)
termination_by 2 * sizeOf es

/-- The `create_stack_element` (render_tree.rs lines 206-219): a 2-element
list of a constraint expression and a content expression. -/
def create_stack_element (exp : Exp) : Except RenderTreeError StackElement :=
  match exp with
  | .list [c, e] =>
    match create_constraint c with
    | .error er => .error er
    | .ok constraint =>
      match create_render_tree e with
      | .error er => .error er
      | .ok content => .ok (.mk constraint content)
  | .list _ => .error (.InvalidLength exp)
  | _ => .error (.ExpectedList exp)
termination_by 2 * sizeOf exp
end

/-- The `collect::<Result<_>>` of `create_render_layer`: build each
child expression in order, first error short-circuiting. -/
def create_render_trees (es : List Exp) :
    Except RenderTreeError (List RenderTree) :=
  match es with
  | [] => .ok []
  | e :: rest =>
    match create_render_tree e with
    | .error er => .error er
    | .ok t =>
      match create_render_trees rest with
      | .error er => .error er
      | .ok ts => .ok (t :: ts)

/-- The `create_render_layer` (render_tree.rs lines 264-280). The Rust body
indexes `elems[0]` before checking that the list is non-empty, so for
the empty-list expression it panics with an index-out-of-bounds fault;
that fault is modelled by the `none` result, every non-faulting outcome
by `some`. -/
def create_render_layer (exp : Exp) :
    Option (Except RenderTreeError RenderLayer) :=
  match exp with
  | .list [] => none
  | .list (e0 :: rest) =>
    if e0.as_symbol ≠ some "layer" then
      some (.error (.ExpectedSymbol "layer" exp))
    else
      match create_render_trees rest with
      | .error er => some (.error er)
      | .ok ts => some (.ok (RenderLayer.mk ts))
  | _ => some (.error (.ExpectedList exp))

/-- The `ratatui::layout::Rect`; the `u16` fields are kept as `Nat` (no
claim under verification exercises coordinate overflow). -/
structure Rect where
  x : Nat
  y : Nat
  width : Nat
  height : Nat
deriving DecidableEq, Repr

/-- The `ratatui::widgets::Borders`: which of the four edges carry a border. -/
structure Borders where
  top : Bool
  bottom : Bool
  left : Bool
  right : Bool
deriving DecidableEq, Repr

/-- The `Borders::NONE`. -/
def Borders.NONE : Borders := ⟨false, false, false, false⟩

/-- The `Borders::ALL`. -/
def Borders.ALL : Borders := ⟨true, true, true, true⟩

/-- The configuration of a `ratatui::widgets::Block` widget as the live
renderer uses it: a title, a title alignment and a border set. -/
structure BlockWidget where
  title : String
  title_alignment : Alignment
  borders : Borders
deriving DecidableEq, Repr

/-- The `Block::bordered().title(t)` as built at lib.rs line 81: all four
borders, the given title, and the default (left) title alignment. -/
def BlockWidget.bordered_titled (t : String) : BlockWidget :=
  ⟨t, Alignment.Left, Borders.ALL⟩

/-- Modelled from the spec: `Block::inner` of the external ratatui
crate, pinned by spec section 3 as "its area shrunk by one cell on each
bordered edge only"; subtraction saturates at zero like `u16`
`saturating_sub`. -/
def BlockWidget.inner (b : BlockWidget) (area : Rect) : Rect :=
  let x := if b.borders.left then area.x + 1 else area.x
  let w := if b.borders.left then area.width - 1 else area.width
  let y := if b.borders.top then area.y + 1 else area.y
  let h := if b.borders.top then area.height - 1 else area.height
  let w := if b.borders.right then w - 1 else w
  let h := if b.borders.bottom then h - 1 else h
  ⟨x, y, w, h⟩

/-- A widget handed to `frame.render_widget` by the live renderer. -/
inductive Widget where
  | Paragraph (text : String)
  | BlockW (b : BlockWidget)
deriving DecidableEq, Repr

/-- A layout solver `Direction → constraints → area → sub-rectangles`,
standing for the external `ratatui::layout::Layout::split` used at
lib.rs lines 87-90; the render functions are parameterised over it
because the cassowary-based solver is outside this repository. -/
def LayoutSplit : Type :=
  Direction → List Constraint → Rect → List Rect

mutual
/-- The `render_tree` of `src/lib.rs` (lines 77-97), as the sequence of
`render_widget` calls it performs, in order. Its `Block` arm is written
against the two-field pattern `Block(title, body)`; with the one-field
`RenderTree::Block(Block)` variant of `render_tree.rs` this corresponds
to the struct's `title` and `content` fields, the `style` field being
unused. The body is rendered into `block.inner(area)` first, then the
block widget into the full area. -/
def render_tree_cmds (split : LayoutSplit) (t : RenderTree) (area : Rect) :
    List (Widget × Rect) :=
  match t with
  | .Text s => [(.Paragraph s, area)]
  | .Block b =>
    match b with
    | .mk title content _style =>
      let bw := BlockWidget.bordered_titled title
      render_tree_cmds split content (bw.inner area) ++ [(.BlockW bw, area)]
  | .Stack d elems =>
    let rects := split d (elems.map StackElement.constraint) area
    render_zip_cmds split elems rects
termination_by sizeOf t

/-- The `zip` loop of the `Stack` arm (lib.rs lines 92-94): each element
is rendered into the matching sub-rectangle, stopping at the shorter of
the two lists. -/
def render_zip_cmds (split : LayoutSplit) (elems : List StackElement)
    (rects : List Rect) : List (Widget × Rect) :=
  match elems, rects with
  | .mk _ content :: es, r :: rs =>
    render_tree_cmds split content r ++ render_zip_cmds split es rs
  | _, _ => []
termination_by sizeOf elems
end

/-- The loop body of `render_layer` (lib.rs lines 99-103): every tree
of the layer is rendered into the same area, in sequence order. -/
def render_trees_cmds (split : LayoutSplit) (ts : List RenderTree)
    (area : Rect) : List (Widget × Rect) :=
  match ts with
  | [] => []
  | t :: rest => render_tree_cmds split t area ++ render_trees_cmds split rest area

/-- The `render_layer` of `src/lib.rs` (lines 99-103). -/
def render_layer_cmds (split : LayoutSplit) (l : RenderLayer) (area : Rect) :
    List (Widget × Rect) :=
  render_trees_cmds split l.trees area

/-- A terminal cell buffer: what character-cell content, if any, has
been painted at a position. -/
def Buffer : Type := Nat × Nat → Option String

/-- The buffer with nothing painted. -/
def emptyBuf : Buffer := fun _ => none

/-- Modelled from the spec: painting one widget into a frame buffer
(spec section 4.2, "paint-over" compositing). The footprint function
`f` says what the external widget rendering writes at each cell; cells
the widget writes replace the previous content, all others keep it. -/
def applyCmd (f : Widget → Rect → Nat × Nat → Option String)
    (buf : Buffer) (c : Widget × Rect) : Buffer :=
  fun p =>
    match f c.1 c.2 p with
    | some v => some v
    | none => buf p

/-- Painting a sequence of widget commands left to right, so that later
commands overwrite earlier ones at overlapping cells. -/
def applyCmds (f : Widget → Rect → Nat × Nat → Option String)
    (buf : Buffer) (cs : List (Widget × Rect)) : Buffer :=
  cs.foldl (applyCmd f) buf

/-- A degenerate layout solver used to instantiate split-parameterised
theorems at concrete stack-free trees. -/
def layoutSplit0 : LayoutSplit := fun _ _ _ => []

/-- The text fallback makes the overall builder total: `create_render_tree`
never returns an error. -/
theorem create_render_tree_total (exp : Exp) :
    ∃ t, create_render_tree exp = .ok t := by
  unfold create_render_tree
  cases Block.from_exp exp with
  | ok b => exact ⟨_, rfl⟩
  | error e1 =>
    cases create_stack exp with
    | ok t => exact ⟨_, rfl⟩
    | error e2 => exact ⟨_, rfl⟩

/-- When both the block and the stack builder fail, the `or_else` chain
returns the text fallback. -/
theorem create_render_tree_fallback (exp : Exp) (e1 e2 : RenderTreeError)
    (hb : Block.from_exp exp = .error e1)
    (hs : create_stack exp = .error e2) :
    create_render_tree exp = .ok (.Text (Exp.toString exp)) := by
  unfold create_render_tree
  rw [hb, hs]
  rfl

/-- Collecting the children of a layer never fails and preserves the
child count, since `create_render_tree` is total. -/
theorem create_render_trees_total (es : List Exp) :
    ∃ ts, create_render_trees es = .ok ts ∧ ts.length = es.length := by
  induction es with
  | nil => exact ⟨[], rfl, rfl⟩
  | cons e rest ih =>
    obtain ⟨t, ht⟩ := create_render_tree_total e
    obtain ⟨ts, hts, hlen⟩ := ih
    refine ⟨t :: ts, ?_, by simp [hlen]⟩
    unfold create_render_trees
    rw [ht, hts]

/-- Painting over an arbitrary buffer agrees with painting over the
empty buffer wherever the command sequence writes, and keeps the old
content elsewhere. -/
theorem applyCmds_emptyBuf (f : Widget → Rect → Nat × Nat → Option String)
    (cs : List (Widget × Rect)) (buf : Buffer) (p : Nat × Nat) :
    applyCmds f buf cs p =
      match applyCmds f emptyBuf cs p with
      | some v => some v
      | none => buf p := by
  induction cs generalizing buf with
  | nil => cases h : emptyBuf p <;> simp [applyCmds, emptyBuf] at h ⊢
  | cons c rest ih =>
    show applyCmds f (applyCmd f buf c) rest p = _
    rw [ih]
    conv_rhs => rw [show applyCmds f emptyBuf (c :: rest) p =
      applyCmds f (applyCmd f emptyBuf c) rest p from rfl, ih]
    cases applyCmds f emptyBuf rest p with
    | some v => rfl
    | none =>
      simp only [applyCmd]
      cases f c.1 c.2 p <;> rfl

/-- Cells written by a command sequence keep their value no matter what
was painted below. -/
theorem applyCmds_override (f : Widget → Rect → Nat × Nat → Option String)
    (cs : List (Widget × Rect)) (buf : Buffer) (p : Nat × Nat) (v : String)
    (h : applyCmds f emptyBuf cs p = some v) :
    applyCmds f buf cs p = some v := by
  rw [applyCmds_emptyBuf, h]

/-- Painting a concatenation paints the first part, then the second
over it. -/
theorem applyCmds_append (f : Widget → Rect → Nat × Nat → Option String)
    (buf : Buffer) (c1 c2 : List (Widget × Rect)) :
    applyCmds f buf (c1 ++ c2) = applyCmds f (applyCmds f buf c1) c2 :=
  List.foldl_append _ _ _ _

/-- Rendering a concatenated tree list concatenates the commands. -/
theorem render_trees_cmds_append (split : LayoutSplit)
    (t1s t2s : List RenderTree) (area : Rect) :
    render_trees_cmds split (t1s ++ t2s) area =
      render_trees_cmds split t1s area ++ render_trees_cmds split t2s area := by
  induction t1s with
  | nil => rfl
  | cons t rest ih => simp [render_trees_cmds, ih]

/-- The layer loop renders each tree into the one shared area, in
sequence order. -/
theorem render_trees_cmds_eq_flatten (split : LayoutSplit)
    (ts : List RenderTree) (area : Rect) :
    render_trees_cmds split ts area =
      (ts.map (fun t => render_tree_cmds split t area)).flatten := by
  induction ts with
  | nil => rfl
  | cons t rest ih => simp [render_trees_cmds, ih]

/-- C1: `create_render_tree` tries, in fixed priority order, the block
builder, then the stack builder, then the text builder, and returns the
first success; in particular `(block "t")`, too short to be a valid
block, is not an error but the `Text` stringification of the whole
expression. -/
theorem claim_C1_fallback_order :
    (∀ exp b, Block.from_exp exp = .ok b →
      create_render_tree exp = .ok (.Block b)) ∧
    (∀ exp e1 t, Block.from_exp exp = .error e1 →
      create_stack exp = .ok t → create_render_tree exp = .ok t) ∧
    (∀ exp e1 e2, Block.from_exp exp = .error e1 →
      create_stack exp = .error e2 →
      create_render_tree exp = create_text exp) ∧
    create_render_tree (Exp.list [.symbol "block", .string "t"]) =
      .ok (.Text (Exp.toString (Exp.list [.symbol "block", .string "t"]))) := by
  refine ⟨?_, ?_, ?_, ?_⟩
  · intro exp b h
    unfold create_render_tree
    rw [h]
  · intro exp e1 t hb hs
    unfold create_render_tree
    rw [hb, hs]
  · intro exp e1 e2 hb hs
    unfold create_render_tree
    rw [hb, hs]
  · simp [create_render_tree, Block.from_exp, create_stack, create_text,
      Exp.as_symbol, Exp.toString, Exp.toStringList]

/-- Witness for C1: at the symbol expression `hello` the block and
stack builders both fail, so the third branch of the fallback applies. -/
theorem claim_C1_witness :
    Block.from_exp (Exp.symbol "hello") =
      .error (.ExpectedList (Exp.symbol "hello")) ∧
    create_stack (Exp.symbol "hello") =
      .error (.ExpectedList (Exp.symbol "hello")) ∧
    create_render_tree (Exp.symbol "hello") = create_text (Exp.symbol "hello") := by
  have hb : Block.from_exp (Exp.symbol "hello") =
      .error (.ExpectedList (Exp.symbol "hello")) := by
    simp [Block.from_exp]
  have hs : create_stack (Exp.symbol "hello") =
      .error (.ExpectedList (Exp.symbol "hello")) := by
    simp [create_stack]
  exact ⟨hb, hs, claim_C1_fallback_order.2.2.1 _ _ _ hb hs⟩

/-- Counterexample to C2: `(block "t" "c" 5)` matches the block shape
but fails its validation (the fourth element is not a style list), yet
`create_render_tree` does not surface that error — the text fallback
absorbs it and the build succeeds. -/
theorem claim_C2_counterexample :
    Block.from_exp
        (Exp.list [.symbol "block", .string "t", .string "c", .integer 5]) =
      .error (.ExpectedList (.integer 5)) ∧
    create_render_tree
        (Exp.list [.symbol "block", .string "t", .string "c", .integer 5]) =
      .ok (.Text "(block t c 5)") := by
  constructor
  · simp [Block.from_exp, create_render_tree, create_stack, create_text,
      Exp.as_symbol, BlockStyle.from_exp]
  · simp [Block.from_exp, create_render_tree, create_stack, create_text,
      Exp.as_symbol, BlockStyle.from_exp, Exp.toString, Exp.toStringList]
    rfl

/-- C2 as amended: `create_render_tree` never returns an error — for
every input it terminates with a successful tree, and when the block
and stack builders both fail (including on matched-but-invalid shapes)
their errors are absorbed by the text fallback rather than surfaced. -/
theorem claim_C2_amended_total_build (exp : Exp) :
    (∃ t, create_render_tree exp = .ok t) ∧
    (∀ e1 e2, Block.from_exp exp = .error e1 → create_stack exp = .error e2 →
      create_render_tree exp = .ok (.Text (Exp.toString exp))) :=
  ⟨create_render_tree_total exp,
   fun e1 e2 hb hs => create_render_tree_fallback exp e1 e2 hb hs⟩

/-- Witness for the amended C2 at the integer expression `7`. -/
theorem claim_C2_witness :
    Block.from_exp (Exp.integer 7) = .error (.ExpectedList (Exp.integer 7)) ∧
    create_stack (Exp.integer 7) = .error (.ExpectedList (Exp.integer 7)) ∧
    create_render_tree (Exp.integer 7) =
      .ok (.Text (Exp.toString (Exp.integer 7))) := by
  have hb : Block.from_exp (Exp.integer 7) =
      .error (.ExpectedList (Exp.integer 7)) := by
    simp [Block.from_exp]
  have hs : create_stack (Exp.integer 7) =
      .error (.ExpectedList (Exp.integer 7)) := by
    simp [create_stack]
  exact ⟨hb, hs, (claim_C2_amended_total_build (Exp.integer 7)).2 _ _ hb hs⟩

/-- C3: the builder entry points are supposed never to crash, but
`create_render_layer` indexes `elems[0]` before checking emptiness, so
the empty-list expression `()` makes it panic (the `none` outcome of
the model) instead of returning a structured error; a non-list input,
by contrast, does take the structured-error path. -/
theorem claim_C3_layer_empty_list_faults :
    create_render_layer (Exp.list []) = none ∧
    create_render_layer (Exp.integer 0) =
      some (.error (.ExpectedList (Exp.integer 0))) :=
  ⟨rfl, rfl⟩

/-- Counterexample to C5: building `(stack diagonal ((length 1) x))`
with `create_render_tree` does not fail at all — the stack builder's
`InvalidDirection` error is absorbed by the text fallback and the build
succeeds with a `Text` leaf. (In the spec's grammar notation the quoted
atoms denote symbols, as in its `"horizontal"|"vertical"`; a direction
that were a string literal would give `ExpectedSymbol`, not
`InvalidDirection`.) -/
theorem claim_C5_counterexample :
    create_render_tree
        (Exp.list [.symbol "stack", .symbol "diagonal",
          .list [.list [.symbol "length", .integer 1], .symbol "x"]]) =
      .ok (.Text "(stack diagonal ((length 1) x))") := by
  simp [create_render_tree, Block.from_exp, create_stack, create_text,
    create_direction, Exp.as_symbol, Exp.toString, Exp.toStringList]
  rfl

/-- C5 as amended: on `(stack diagonal ((length 1) x))` the stack
sub-builder `create_stack` fails with `InvalidDirection("diagonal")`,
but the overall builder `create_render_tree` falls back and yields the
`Text` stringification instead of surfacing that error. -/
theorem claim_C5_amended_stack_error_absorbed :
    create_stack
        (Exp.list [.symbol "stack", .symbol "diagonal",
          .list [.list [.symbol "length", .integer 1], .symbol "x"]]) =
      .error (.InvalidDirection "diagonal") ∧
    create_render_tree
        (Exp.list [.symbol "stack", .symbol "diagonal",
          .list [.list [.symbol "length", .integer 1], .symbol "x"]]) =
      .ok (.Text "(stack diagonal ((length 1) x))") := by
  constructor
  · simp [create_stack, create_direction, Exp.as_symbol]
  · simp [create_render_tree, Block.from_exp, create_stack, create_text,
      create_direction, Exp.as_symbol, Exp.toString, Exp.toStringList]
    rfl

/-- C6: style application is best-effort — parsing any non-empty clause
list under a `style` head always succeeds, unmatched or invalid clauses
being silently skipped by the fold — and in particular
`(block "t" "c" (style (bogus-clause)))` builds to exactly the same
value as `(block "t" "c")` with no style at all. -/
theorem claim_C6_style_leniency :
    (∀ (c : Exp) (cs : List Exp), ∃ st,
      BlockStyle.from_exp (Exp.list (.symbol "style" :: c :: cs)) = .ok st) ∧
    Block.from_exp
        (Exp.list [.symbol "block", .string "t", .string "c",
          .list [.symbol "style", .list [.symbol "bogus-clause"]]]) =
      Block.from_exp (Exp.list [.symbol "block", .string "t", .string "c"]) ∧
    create_render_tree
        (Exp.list [.symbol "block", .string "t", .string "c",
          .list [.symbol "style", .list [.symbol "bogus-clause"]]]) =
      create_render_tree (Exp.list [.symbol "block", .string "t", .string "c"]) := by
  refine ⟨?_, ?_, ?_⟩
  · intro c cs
    refine ⟨(c :: cs).foldl
      (fun st cl =>
        match BlockStyle.title_align_of cl with
        | .ok a => { st with title_align := a }
        | .error _ => st)
      BlockStyle.default, ?_⟩
    simp [BlockStyle.from_exp, Exp.as_symbol]
  · simp [Block.from_exp, create_render_tree, create_stack, create_text,
      Exp.as_symbol, BlockStyle.from_exp, BlockStyle.title_align_of,
      BlockStyle.default, Exp.toString]
  · simp [Block.from_exp, create_render_tree, create_stack, create_text,
      Exp.as_symbol, BlockStyle.from_exp, BlockStyle.title_align_of,
      BlockStyle.default, Exp.toString]

/-- Counterexample to C7: the no-child expression `(layer)` is accepted
by `create_render_layer` and yields an `Ok` layer containing no render
tree at all, refuting "whenever create_render_layer returns Ok, the
resulting layer contains at least one render tree". -/
theorem claim_C7_counterexample :
    create_render_layer (Exp.list [.symbol "layer"]) =
      some (.ok (RenderLayer.mk [])) := rfl

/-- C7 as amended: a layer expression with at least one child builds to
an `Ok` layer with exactly one tree per child, hence non-empty — the
non-emptiness of the spec's `(\"layer\", ui+)` grammar holds only when
the expression really has one or more children. -/
theorem claim_C7_amended_nonempty (u : Exp) (us : List Exp) :
    ∃ ts, create_render_layer (Exp.list (.symbol "layer" :: u :: us)) =
        some (.ok (RenderLayer.mk ts)) ∧
      ts ≠ [] ∧ ts.length = us.length + 1 := by
  obtain ⟨ts, hts, hlen⟩ := create_render_trees_total (u :: us)
  refine ⟨ts, ?_, ?_, by simpa using hlen⟩
  · simp [create_render_layer, Exp.as_symbol, hts]
  · intro h
    subst h
    simp at hlen

/-- C8: `(block "t" "c")` builds to exactly
`Block(title="t", style=default, content=Text("c"))`, and nesting
composes: `(block "t1" (block "t2" "c"))` builds to a two-level block
chain ending in `Text("c")`. -/
theorem claim_C8_block_roundtrip :
    create_render_tree (Exp.list [.symbol "block", .string "t", .string "c"]) =
      .ok (.Block (.mk "t" (.Text "c") BlockStyle.default)) ∧
    create_render_tree
        (Exp.list [.symbol "block", .string "t1",
          .list [.symbol "block", .string "t2", .string "c"]]) =
      .ok (.Block (.mk "t1"
        (.Block (.mk "t2" (.Text "c") BlockStyle.default))
        BlockStyle.default)) := by
  constructor <;>
    simp [create_render_tree, Block.from_exp, create_stack, create_text,
      Exp.as_symbol, Exp.toString]

/-- C10: for every constraint kind in `{length, min, max, percentage,
fill}` and every 64-bit integer payload, `create_constraint` succeeds
with the value truncated to 16 bits (the residue modulo `2 ^ 16`);
negative values are not rejected, e.g. `(length -1)` gives
`Length(65535)`. -/
theorem claim_C10_constraint_truncation :
    (∀ n : Int, -(2 ^ 63) ≤ n → n < 2 ^ 63 →
      create_constraint (Exp.list [.symbol "length", .integer n]) =
        .ok (.Length ((n % 65536).toNat)) ∧
      create_constraint (Exp.list [.symbol "min", .integer n]) =
        .ok (.Min ((n % 65536).toNat)) ∧
      create_constraint (Exp.list [.symbol "max", .integer n]) =
        .ok (.Max ((n % 65536).toNat)) ∧
      create_constraint (Exp.list [.symbol "percentage", .integer n]) =
        .ok (.Percentage ((n % 65536).toNat)) ∧
      create_constraint (Exp.list [.symbol "fill", .integer n]) =
        .ok (.Fill ((n % 65536).toNat))) ∧
    create_constraint (Exp.list [.symbol "length", .integer (-1)]) =
      .ok (.Length 65535) := by
  refine ⟨?_, by rfl⟩
  intro n _ _
  refine ⟨?_, ?_, ?_, ?_, ?_⟩ <;>
    simp [create_constraint, create_integer, Exp.as_integer, Exp.as_symbol,
      i64_as_u16]

/-- Witness for C10 at `n = -1`, the claim's own example. -/
theorem claim_C10_witness :
    (-(2 ^ 63) ≤ (-1 : Int)) ∧ ((-1 : Int) < 2 ^ 63) ∧
    create_constraint (Exp.list [.symbol "length", .integer (-1)]) =
      .ok (.Length (((-1 : Int) % 65536).toNat)) :=
  ⟨by norm_num, by norm_num,
   (claim_C10_constraint_truncation.1 (-1) (by norm_num) (by norm_num)).1⟩

/-- Counterexample to C4: `BlockStyle` carries no border set, and the
live renderer ignores the style entirely. A block built with the
default style — which per the claim should have no borders, an
unshrunk inner region, and a title drawn per `title_align` — is painted
with `Block::bordered()` (all four borders), its child area shrunk by
one cell on every edge (`⟨1,1,8,8⟩` instead of the full `⟨0,0,10,10⟩`),
and a block with `title_align = Center` is rendered with exactly the
same left-aligned widget. -/
theorem claim_C4_counterexample :
    render_tree_cmds layoutSplit0
        (.Block (.mk "t" (.Text "c") BlockStyle.default)) ⟨0, 0, 10, 10⟩ =
      [(.Paragraph "c", ⟨1, 1, 8, 8⟩),
       (.BlockW ⟨"t", .Left, Borders.ALL⟩, ⟨0, 0, 10, 10⟩)] ∧
    render_tree_cmds layoutSplit0
        (.Block (.mk "t" (.Text "c") ⟨Alignment.Center⟩)) ⟨0, 0, 10, 10⟩ =
      [(.Paragraph "c", ⟨1, 1, 8, 8⟩),
       (.BlockW ⟨"t", .Left, Borders.ALL⟩, ⟨0, 0, 10, 10⟩)] ∧
    Borders.ALL ≠ Borders.NONE ∧
    (⟨1, 1, 8, 8⟩ : Rect) ≠ ⟨0, 0, 10, 10⟩ := by
  refine ⟨?_, ?_, by decide, by decide⟩ <;>
    simp [render_tree_cmds, BlockWidget.bordered_titled, BlockWidget.inner,
      Borders.ALL]

/-- C4 as amended: when rendering a `Block` node the engine always
draws a full border on all four edges with the given title at the
default (left) alignment, ignoring `BlockStyle` entirely, and the inner
region handed to the child is the area shrunk by one cell on each of
the four edges. -/
theorem claim_C4_amended_always_bordered (split : LayoutSplit)
    (title : String) (content : RenderTree) (style : BlockStyle)
    (area : Rect) :
    render_tree_cmds split (.Block (.mk title content style)) area =
      render_tree_cmds split content
        ⟨area.x + 1, area.y + 1, area.width - 2, area.height - 2⟩ ++
      [(.BlockW ⟨title, .Left, Borders.ALL⟩, area)] := by
  rw [render_tree_cmds]
  simp [BlockWidget.bordered_titled, BlockWidget.inner, Borders.ALL,
    Nat.sub_sub]

/-- C9: rendering a `RenderLayer` renders each contained tree into the
same area, in the layer's sequence order, and compositing is
paint-over — any cell the later trees paint holds their value in the
final buffer regardless of what earlier trees painted there. -/
theorem claim_C9_layer_paint_over (split : LayoutSplit)
    (f : Widget → Rect → Nat × Nat → Option String)
    (t1s t2s : List RenderTree) (area : Rect) (buf : Buffer)
    (p : Nat × Nat) (v : String)
    (h : applyCmds f emptyBuf
      (render_layer_cmds split (RenderLayer.mk t2s) area) p = some v) :
    render_layer_cmds split (RenderLayer.mk (t1s ++ t2s)) area =
      ((t1s ++ t2s).map (fun t => render_tree_cmds split t area)).flatten ∧
    render_layer_cmds split (RenderLayer.mk (t1s ++ t2s)) area =
      render_layer_cmds split (RenderLayer.mk t1s) area ++
      render_layer_cmds split (RenderLayer.mk t2s) area ∧
    applyCmds f buf
      (render_layer_cmds split (RenderLayer.mk (t1s ++ t2s)) area) p = some v := by
  refine ⟨render_trees_cmds_eq_flatten split (t1s ++ t2s) area,
    render_trees_cmds_append split t1s t2s area, ?_⟩
  show applyCmds f buf (render_trees_cmds split (t1s ++ t2s) area) p = some v
  rw [render_trees_cmds_append split t1s t2s area, applyCmds_append]
  exact applyCmds_override f _ _ p v h

/-- Witness for C9 on the spec's compositing example
`(layer (block "a" "x") (block "b" "y"))`: the second block paints the
cell `(1,1)`, and after compositing the whole layer that cell holds the
second block's paint. -/
theorem claim_C9_witness :
    applyCmds (fun _ _ q => if q = ((1 : Nat), (1 : Nat)) then some "pix" else none)
        emptyBuf
        (render_layer_cmds layoutSplit0
          (RenderLayer.mk [.Block (.mk "b" (.Text "y") BlockStyle.default)])
          ⟨0, 0, 5, 5⟩) (1, 1) = some "pix" ∧
    applyCmds (fun _ _ q => if q = ((1 : Nat), (1 : Nat)) then some "pix" else none)
        emptyBuf
        (render_layer_cmds layoutSplit0
          (RenderLayer.mk
            ([.Block (.mk "a" (.Text "x") BlockStyle.default)] ++
             [.Block (.mk "b" (.Text "y") BlockStyle.default)]))
          ⟨0, 0, 5, 5⟩) (1, 1) = some "pix" := by
  have h : applyCmds
      (fun _ _ q => if q = ((1 : Nat), (1 : Nat)) then some "pix" else none)
      emptyBuf
      (render_layer_cmds layoutSplit0
        (RenderLayer.mk [.Block (.mk "b" (.Text "y") BlockStyle.default)])
        ⟨0, 0, 5, 5⟩) (1, 1) = some "pix" := by
    simp [render_layer_cmds, render_trees_cmds, render_tree_cmds,
      BlockWidget.bordered_titled, BlockWidget.inner, Borders.ALL,
      applyCmds, applyCmd, emptyBuf]
  exact ⟨h,
    (claim_C9_layer_paint_over layoutSplit0 _
      [.Block (.mk "a" (.Text "x") BlockStyle.default)]
      [.Block (.mk "b" (.Text "y") BlockStyle.default)]
      ⟨0, 0, 5, 5⟩ emptyBuf (1, 1) "pix" h).2.2⟩

end Topogi
